import Mathlib

/-!
Shallow embedding of `src/function.hpp` (namespace `hpp`): a callback-binding
utility pairing a type-erased callable with an optional liveness token
(`sentinel_t`, a weak reference to a shared marker owned by the callable's
owner).  Invocation is a no-op once the token reports the owner gone.

Modelling choices:
* The heap of shared markers (`std::shared_ptr` control blocks) is a `World`:
  the list of marker ids whose strong count is positive, plus a fresh-id
  counter.  `std::weak_ptr::expired()` for a marker id is "id not in the
  alive list".  Owner destruction and marker allocation are the two world
  transitions (`World.Step`); `shared_ptr` semantics guarantee an id whose
  strong count reached zero never becomes alive again, which the model
  captures by allocating only fresh ids.
* A stored callable of signature `ReturnType(Args...)` is a Lean function
  `α → CallResult ρ`: it either returns a value, throws `function_exception`
  (the soft-failure signal, carrying message and passthrough flag), or throws
  some other exception (identified by a numeric code).
* `Slot` is the `slot_` member of `_function_container`: the type-erased
  `std::function` (`none` = empty) and the `optional<sentinel_t>`.
* `Slot.invoke` / `Slot.invokeVoid` mirror `_value_function_base::operator()`
  and `_void_function_base::operator()`: check `valid()`, call the stored
  callable, catch `function_exception` and rethrow it only when its
  passthrough flag is set.  The second component of the result records
  whether the stored callable was actually called.
-/

namespace Hpp

/-- The heap of shared liveness markers: ids with positive strong count,
and the next fresh id (ids of destroyed markers are never reused, as a
`shared_ptr` control block is never resurrected). -/
structure World where
  alive : List Nat
  next : Nat

/-- Well-formedness: every alive marker id was allocated. -/
def World.wf (w : World) : Bool :=
  w.alive.all (fun i => decide (i < w.next))

/-- The owner of marker `i` is destroyed: its strong reference disappears. -/
def World.destroyOwner (w : World) (i : Nat) : World :=
  ⟨w.alive.filter (fun j => decide (j ≠ i)), w.next⟩

/-- A new shared marker is allocated (`std::make_shared`): a fresh id. -/
def World.allocMarker (w : World) : World :=
  ⟨w.next :: w.alive, w.next + 1⟩

/-- One step of the surrounding program, as far as liveness markers are
concerned: some owner dies, or a new marker is allocated. -/
inductive World.Step : World → World → Prop
  | destroy (w : World) (i : Nat) : World.Step w (w.destroyOwner i)
  | alloc (w : World) : World.Step w w.allocMarker

/-- Any number of steps. -/
def World.Reach : World → World → Prop :=
  Relation.ReflTransGen World.Step

/-- `hpp::sentinel_t`: wraps a `std::weak_ptr` to a shared marker; either
null (default-constructed) or a weak reference to marker `id`. -/
inductive sentinel_t where
  | null : sentinel_t
  | ref (id : Nat) : sentinel_t
deriving DecidableEq

/-- `sentinel_t::expired`: `ptr_.expired()` — true for a null weak pointer,
otherwise true iff the marker's strong count is zero. -/
def sentinel_t.expired (w : World) : sentinel_t → Bool
  | .null => true
  | .ref i => !(decide (i ∈ w.alive))

/-- A sentinel's marker id, if any, was allocated in `w`. -/
def sentinel_t.wfIn (w : World) : sentinel_t → Bool
  | .null => true
  | .ref i => decide (i < w.next)

/-- `hpp::lifetime_sentinel`: owns a shared `_signal_guard_t` marker
(identified by `guard_id`) and hands out a sentinel referencing it. -/
structure lifetime_sentinel where
  guard_id : Nat

/-- `lifetime_sentinel::get_sentinel`: a sentinel on the guard marker. -/
def lifetime_sentinel.get_sentinel (ls : lifetime_sentinel) : sentinel_t :=
  .ref ls.guard_id

/-- Constructing a `lifetime_sentinel` allocates its guard marker
(`std::make_shared<_signal_guard_t>()`). -/
def mk_lifetime_sentinel (w : World) : lifetime_sentinel × World :=
  (⟨w.next⟩, w.allocMarker)

/-- `hpp::function_exception`: the soft-failure signal a callable may throw;
carries a message and the passthrough flag (field names as in the source). -/
structure function_exception where
  error_msg_ : String
  passtrhrough_ : Bool
deriving DecidableEq

/-- `function_exception::is_passthrough`. -/
def function_exception.is_passthrough (e : function_exception) : Bool :=
  e.passtrhrough_

/-- Outcome of calling the stored callable itself: normal return, throw of
the soft-failure signal, or throw of any other exception (code `n`). -/
inductive CallResult (ρ : Type) where
  | ok (v : ρ) : CallResult ρ
  | soft (e : function_exception) : CallResult ρ
  | err (n : Nat) : CallResult ρ

/-- The `slot_` member of `hpp::_function_container<Sig>`: the type-erased
callable (`none` = empty `std::function`) and the optional sentinel. -/
structure Slot (α ρ : Type) where
  func : Option (α → CallResult ρ)
  sentinel : Option sentinel_t

/-- A default-constructed slot: `func_t func {}; sentinel_opt_t sentinel {};`. -/
def defaultSlot {α ρ : Type} : Slot α ρ :=
  { func := none, sentinel := none }

/-- `_function_container::disconnect`: `slot_ = {};`. -/
def Slot.disconnect {α ρ : Type} (_s : Slot α ρ) : Slot α ρ :=
  defaultSlot

/-- `_function_container::empty`: `!slot_.func`. -/
def Slot.empty {α ρ : Type} (s : Slot α ρ) : Bool :=
  s.func.isNone

/-- `_function_container::expired`: false when no sentinel is attached,
otherwise the sentinel's own expiry. -/
def Slot.expired {α ρ : Type} (w : World) (s : Slot α ρ) : Bool :=
  match s.sentinel with
  | none => false
  | some sn => sn.expired w

/-- `_function_container::valid`: `!expired() && !empty()`. -/
def Slot.valid {α ρ : Type} (w : World) (s : Slot α ρ) : Bool :=
  !s.expired w && !s.empty

/-- `_function_container::connect_impl`: stores the callable and the
sentinel (both replaced as a unit). -/
def Slot.connect_impl {α ρ : Type} (_s : Slot α ρ) (sentinel : Option sentinel_t)
    (f : α → CallResult ρ) : Slot α ρ :=
  { func := some f, sentinel := sentinel }

/-- `function::connect(sentinel, f)`. -/
def Slot.connect {α ρ : Type} (s : Slot α ρ) (sentinel : Option sentinel_t)
    (f : α → CallResult ρ) : Slot α ρ :=
  s.connect_impl sentinel f

/-- `function::connect(f)`: `connect(no_value, f)`. -/
def Slot.connectNoSentinel {α ρ : Type} (s : Slot α ρ) (f : α → CallResult ρ) : Slot α ρ :=
  s.connect none f

/-- `function::operator=(f)`: `connect(this->slot_.sentinel, f)` — the new
callable is bound with the sentinel already stored in the slot. -/
def Slot.assign {α ρ : Type} (s : Slot α ρ) (f : α → CallResult ρ) : Slot α ρ :=
  s.connect s.sentinel f

/-- What `_value_function_base::operator()` does, seen from its caller:
it returns an `optional<ReturnType>`, or lets an exception escape. -/
inductive InvokeOutcome (ρ : Type) where
  | ret (v : Option ρ) : InvokeOutcome ρ
  | soft_thrown (e : function_exception) : InvokeOutcome ρ
  | err_thrown (n : Nat) : InvokeOutcome ρ

/-- What `_void_function_base::operator()` does, seen from its caller:
it returns, or lets an exception escape. -/
inductive VoidOutcome where
  | ret : VoidOutcome
  | soft_thrown (e : function_exception) : VoidOutcome
  | err_thrown (n : Nat) : VoidOutcome

/-- `_value_function_base::operator()`: inside a try block, if `valid()`
call the stored callable and wrap its value; catch `function_exception`,
rethrowing it iff passthrough; otherwise return `no_value`.  The second
component records whether the stored callable was called. -/
def Slot.invoke {α ρ : Type} (w : World) (s : Slot α ρ) (a : α) :
    InvokeOutcome ρ × Bool :=
  if s.valid w = true then
    match s.func with
    | some f =>
      match f a with
      | CallResult.ok v => (InvokeOutcome.ret (some v), true)
      | CallResult.soft e =>
        if e.is_passthrough then (InvokeOutcome.soft_thrown e, true)
        else (InvokeOutcome.ret none, true)
      | CallResult.err n => (InvokeOutcome.err_thrown n, true)
    | none => (InvokeOutcome.ret none, false)
  else
    (InvokeOutcome.ret none, false)

/-- `_void_function_base::operator()`: same control flow with no value. -/
def Slot.invokeVoid {α : Type} (w : World) (s : Slot α Unit) (a : α) :
    VoidOutcome × Bool :=
  if s.valid w = true then
    match s.func with
    | some f =>
      match f a with
      | CallResult.ok _ => (VoidOutcome.ret, true)
      | CallResult.soft e =>
        if e.is_passthrough then (VoidOutcome.soft_thrown e, true)
        else (VoidOutcome.ret, true)
      | CallResult.err n => (VoidOutcome.err_thrown n, true)
    | none => (VoidOutcome.ret, false)
  else
    (VoidOutcome.ret, false)

/-! ### Overload set (`hpp::overload_set<Functions...>`)

The tuple of `function<F>` members is modelled as a list of signature
identifiers (`sigs`, with decidable equality, mirroring `std::is_same`-based
type equality) and one `Slot` per position.  A C++ callable value, as seen by
the set, is characterised by which member signatures it structurally
satisfies: `ψ T = some f` when `std::function<T>` is constructible from it
(its call shape for signature `T` being `f`), `ψ T = none` when not.

`assign_overload` (the `expander` at function.hpp:762) instantiates
`connect` — and hence the `std::function` construction in `connect_impl` —
for **every** index of the tuple, with no per-member selection; so the whole
call is well-formed (compiles) exactly when the callable satisfies every
member signature.  `overload_connect_ok` is that well-formedness condition,
and `overload_set.connect` is defined only under it. -/

/-- The member signatures and member slots of an `overload_set`. -/
structure overload_set (σ α ρ : Type) where
  sigs : List σ
  members : Fin sigs.length → Slot α ρ

/-- The `has_type` trait of the source (recursion over the tuple's types):
true iff `T` occurs in the list. -/
def has_type {σ : Type} [DecidableEq σ] (T : σ) : List σ → Bool
  | [] => false
  | U :: Ts => if U = T then true else has_type T Ts

/-- Compile-time well-formedness of `assign_overload` with callable `ψ`:
every member's `std::function` can be constructed from the callable. -/
def overload_connect_ok {σ α ρ : Type} (os : overload_set σ α ρ)
    (ψ : σ → Option (α → CallResult ρ)) : Bool :=
  os.sigs.all (fun T => (ψ T).isSome)

/-- `overload_set::connect(sentinel, f)` → `assign_overload`: every member
slot is connected (via `connect_impl`) to the callable's shape for its own
signature, with the one sentinel; defined only under the compile-time
condition `overload_connect_ok`. -/
def overload_set.connect {σ α ρ : Type} [DecidableEq σ] (os : overload_set σ α ρ)
    (sn : Option sentinel_t) (ψ : σ → Option (α → CallResult ρ))
    (h : overload_connect_ok os ψ = true) : overload_set σ α ρ where
  sigs := os.sigs
  members := fun i =>
    Slot.connect_impl (os.members i) sn
      ((ψ (os.sigs.get i)).get (by
        have hmem : os.sigs.get i ∈ os.sigs := os.sigs.get_mem i.1 i.2
        exact List.all_eq_true.mp h _ hmem))

/-- The `has_type` trait decides exactly list membership of the signature. -/
theorem has_type_eq_mem {σ : Type} [DecidableEq σ] (T : σ) (L : List σ) :
    has_type T L = true ↔ T ∈ L := by
  induction L with
  | nil => simp [has_type]
  | cons U Ts ih =>
    by_cases hU : U = T
    · simp [has_type, hU]
    · simp only [has_type, if_neg hU, ih, List.mem_cons]
      exact ⟨Or.inr, fun hc => hc.elim (fun he => absurd he.symm hU) id⟩

/-- `overload_set::get<Function>()`: `static_assert(has_overload<...>())`
then `std::get` on the tuple — defined only under the compile-time
membership proof, and returns the member at the signature's position. -/
def overload_set.get {σ α ρ : Type} [DecidableEq σ] (os : overload_set σ α ρ)
    (T : σ) (h : has_type T os.sigs = true) : Slot α ρ :=
  os.members ⟨os.sigs.indexOf T,
    List.indexOf_lt_length.mpr ((has_type_eq_mem T os.sigs).mp h)⟩

/-- Spec-modelled selective binding.  Modelled from the spec:
"attempts to bind `callable` into every member signature it structurally
satisfies ... a callable unable to satisfy a given member's signature
simply leaves that member untouched".  This per-member selection is what
the spec describes; it is **not** what `assign_overload` in the source
does, and it exists here only to be compared with `overload_set.connect`. -/
def overload_bind_all_spec {σ α ρ : Type} (os : overload_set σ α ρ)
    (sn : Option sentinel_t) (ψ : σ → Option (α → CallResult ρ)) :
    overload_set σ α ρ where
  sigs := os.sigs
  members := fun i =>
    match ψ (os.sigs.get i) with
    | some f => Slot.connect_impl (os.members i) sn f
    | none => os.members i

/-! ### Helper lemmas: a dead marker stays dead across world steps -/

/-- One world step preserves well-formedness and keeps a dead, already
allocated marker dead (fresh allocation never reuses its id). -/
theorem step_dead_mono {w w' : World} {i : Nat}
    (hwf : w.wf = true) (hlt : i < w.next) (hdead : i ∉ w.alive)
    (hs : World.Step w w') :
    w'.wf = true ∧ i < w'.next ∧ i ∉ w'.alive := by
  cases hs with
  | destroy j =>
    refine ⟨?_, hlt, ?_⟩
    · simp only [World.wf, World.destroyOwner, List.all_eq_true] at hwf ⊢
      intro x hx
      exact hwf x (List.mem_of_mem_filter hx)
    · intro hmem
      exact hdead (List.mem_of_mem_filter hmem)
  | alloc =>
    refine ⟨?_, Nat.lt_succ_of_lt hlt, ?_⟩
    · simp only [World.wf, World.allocMarker, List.all_eq_true, decide_eq_true_eq] at hwf ⊢
      intro x hx
      rcases List.mem_cons.mp hx with h1 | h2
      · omega
      · exact Nat.lt_succ_of_lt (hwf x h2)
    · intro hmem
      rcases List.mem_cons.mp hmem with h1 | h2
      · omega
      · exact hdead h2

/-- Across any number of steps, a dead, already allocated marker stays dead. -/
theorem reach_dead_mono {w w' : World} {i : Nat}
    (hr : Relation.ReflTransGen World.Step w w')
    (hwf : w.wf = true) (hlt : i < w.next) (hdead : i ∉ w.alive) :
    w'.wf = true ∧ i < w'.next ∧ i ∉ w'.alive := by
  induction hr with
  | refl => exact ⟨hwf, hlt, hdead⟩
  | tail _hab hbc ih =>
    obtain ⟨h1, h2, h3⟩ := ih
    exact step_dead_mono h1 h2 h3 hbc

/-- An expired sentinel stays expired in every reachable world. -/
theorem sentinel_expired_mono {w w' : World} {s : sentinel_t}
    (hwf : w.wf = true) (hws : s.wfIn w = true)
    (hexp : s.expired w = true) (hr : World.Reach w w') :
    s.expired w' = true := by
  cases s with
  | null => rfl
  | ref i =>
    simp only [sentinel_t.expired, Bool.not_eq_true', decide_eq_false_iff_not] at hexp ⊢
    simp only [sentinel_t.wfIn, decide_eq_true_eq] at hws
    have hr' : Relation.ReflTransGen World.Step w w' := hr
    exact (reach_dead_mono hr' hwf hws hexp).2.2

/-! ### Claims -/

/-- C1: for every slot that is not valid (empty callable, or a present but
expired token), invoking the handle performs no call to the stored callable,
raises no error, and yields `nullopt` for value-returning signatures or
simply returns for void signatures; in particular for a freshly
default-constructed handle, which is not valid in any world. -/
theorem invalid_invoke_noop {α β ρ : Type} (w : World) (s : Slot α ρ)
    (t : Slot β Unit) (hs : s.valid w = false) (ht : t.valid w = false)
    (a : α) (b : β) :
    Slot.invoke w s a = (InvokeOutcome.ret none, false) ∧
    Slot.invokeVoid w t b = (VoidOutcome.ret, false) ∧
    (defaultSlot : Slot α ρ).valid w = false := by
  refine ⟨?_, ?_, rfl⟩
  · simp [Slot.invoke, hs]
  · simp [Slot.invokeVoid, ht]

/-- Witness for C1 at a concrete input: the default-constructed slot in the
empty world. -/
theorem invalid_invoke_noop_witness :
    Slot.invoke ⟨[], 0⟩ (defaultSlot : Slot Nat Nat) 5 = (InvokeOutcome.ret none, false) ∧
    Slot.invokeVoid ⟨[], 0⟩ (defaultSlot : Slot Nat Unit) 7 = (VoidOutcome.ret, false) ∧
    (defaultSlot : Slot Nat Nat).valid ⟨[], 0⟩ = false :=
  invalid_invoke_noop ⟨[], 0⟩ defaultSlot defaultSlot rfl rfl 5 7

/-- C2: token expiry is monotonic: once a (well-formed) token has reported
expired, it reports expired in every reachable world, and every invoke of a
slot carrying that token does not call the callable and yields `nullopt`. -/
theorem token_expiry_monotonic {α ρ : Type} (w w' : World) (s : sentinel_t)
    (hwf : w.wf = true) (hws : s.wfIn w = true) (hexp : s.expired w = true)
    (hr : World.Reach w w') (sl : Slot α ρ) (hsl : sl.sentinel = some s) (a : α) :
    s.expired w' = true ∧ Slot.invoke w' sl a = (InvokeOutcome.ret none, false) := by
  have he' := sentinel_expired_mono hwf hws hexp hr
  have hv : sl.valid w' = false := by
    simp [Slot.valid, Slot.expired, hsl, he']
  exact ⟨he', by simp [Slot.invoke, hv]⟩

/-- Witness for C2 at a concrete input: marker 0 already dead, zero steps. -/
theorem token_expiry_monotonic_witness :
    (sentinel_t.ref 0).expired ⟨[], 1⟩ = true ∧
    Slot.invoke ⟨[], 1⟩
      (⟨some (fun _ => CallResult.ok 0), some (sentinel_t.ref 0)⟩ : Slot Nat Nat) 3 =
      (InvokeOutcome.ret none, false) :=
  token_expiry_monotonic ⟨[], 1⟩ ⟨[], 1⟩ (sentinel_t.ref 0) rfl rfl rfl
    Relation.ReflTransGen.refl
    (⟨some (fun _ => CallResult.ok 0), some (sentinel_t.ref 0)⟩ : Slot Nat Nat) rfl 3

/-- C3: when the stored callable throws `function_exception` during invoke:
with passthrough unset, the signal is absorbed and invoke yields `nullopt`
(value signatures) or returns normally (void signatures); with passthrough
set, the same exception propagates out of invoke. -/
theorem soft_failure_passthrough {α β ρ : Type} (w : World)
    (s : Slot α ρ) (f : α → CallResult ρ) (hf : s.func = some f)
    (hv : s.valid w = true) (a : α) (e : function_exception)
    (he : f a = CallResult.soft e)
    (t : Slot β Unit) (g : β → CallResult Unit) (hg : t.func = some g)
    (hvt : t.valid w = true) (b : β) (e' : function_exception)
    (hge : g b = CallResult.soft e') :
    Slot.invoke w s a =
      ((if e.is_passthrough then InvokeOutcome.soft_thrown e else InvokeOutcome.ret none), true) ∧
    Slot.invokeVoid w t b =
      ((if e'.is_passthrough then VoidOutcome.soft_thrown e' else VoidOutcome.ret), true) := by
  constructor
  · simp only [Slot.invoke, hv, if_true, hf, he]
    split <;> rfl
  · simp only [Slot.invokeVoid, hvt, if_true, hg, hge]
    split <;> rfl

/-- Witness for C3: one absorbed and one passthrough soft failure. -/
theorem soft_failure_passthrough_witness :
    Slot.invoke ⟨[], 0⟩
      (⟨some (fun _ => CallResult.soft ⟨"m", false⟩), none⟩ : Slot Nat Nat) 1 =
      ((if (⟨"m", false⟩ : function_exception).is_passthrough
        then InvokeOutcome.soft_thrown ⟨"m", false⟩ else InvokeOutcome.ret none), true) ∧
    Slot.invokeVoid ⟨[], 0⟩
      (⟨some (fun _ => CallResult.soft ⟨"p", true⟩), none⟩ : Slot Nat Unit) 2 =
      ((if (⟨"p", true⟩ : function_exception).is_passthrough
        then VoidOutcome.soft_thrown ⟨"p", true⟩ else VoidOutcome.ret), true) :=
  soft_failure_passthrough ⟨[], 0⟩
    (⟨some (fun _ => CallResult.soft ⟨"m", false⟩), none⟩ : Slot Nat Nat)
    (fun _ => CallResult.soft ⟨"m", false⟩) rfl rfl 1 ⟨"m", false⟩ rfl
    (⟨some (fun _ => CallResult.soft ⟨"p", true⟩), none⟩ : Slot Nat Unit)
    (fun _ => CallResult.soft ⟨"p", true⟩) rfl rfl 2 ⟨"p", true⟩ rfl

/-- C4: `operator=` replaces only the stored callable and preserves the
previously attached token; consequently, when that token is already expired,
invoking the handle after the assignment does not call the new callable. -/
theorem assign_preserves_sentinel {α ρ : Type} (s : Slot α ρ)
    (g : α → CallResult ρ) (w : World) (a : α) (hexp : s.expired w = true) :
    (s.assign g).sentinel = s.sentinel ∧ (s.assign g).func = some g ∧
    Slot.invoke w (s.assign g) a = (InvokeOutcome.ret none, false) := by
  refine ⟨rfl, rfl, ?_⟩
  have he : (s.assign g).expired w = true := hexp
  have hv : (s.assign g).valid w = false := by simp [Slot.valid, he]
  simp [Slot.invoke, hv]

/-- Witness for C4: a slot whose token's marker is already dead, rebound to
a new callable by assignment. -/
theorem assign_preserves_sentinel_witness :
    ((⟨none, some (sentinel_t.ref 0)⟩ : Slot Nat Nat).assign
        (fun n => CallResult.ok n)).sentinel =
      (⟨none, some (sentinel_t.ref 0)⟩ : Slot Nat Nat).sentinel ∧
    ((⟨none, some (sentinel_t.ref 0)⟩ : Slot Nat Nat).assign
        (fun n => CallResult.ok n)).func = some (fun n => CallResult.ok n) ∧
    Slot.invoke ⟨[], 1⟩
      ((⟨none, some (sentinel_t.ref 0)⟩ : Slot Nat Nat).assign
        (fun n => CallResult.ok n)) 2 = (InvokeOutcome.ret none, false) :=
  assign_preserves_sentinel (⟨none, some (sentinel_t.ref 0)⟩ : Slot Nat Nat)
    (fun n => CallResult.ok n) ⟨[], 1⟩ 2 rfl

/-- Example two-signature overload set (signatures identified by the codes
`0` and `1`), both members default-constructed. -/
def exOS : overload_set Nat Nat Nat where
  sigs := [0, 1]
  members := fun _ => defaultSlot

/-- Example callable structurally satisfying only signature `0` (for
signature `1`, `std::function` is not constructible from it). -/
def exPsi : Nat → Option (Nat → CallResult Nat) :=
  fun T => if T = 0 then some (fun a => CallResult.ok a) else none

/-- Example callable structurally satisfying every signature of `exOS`. -/
def exPsiAll : Nat → Option (Nat → CallResult Nat) :=
  fun _ => some (fun a => CallResult.ok (a + 1))

/-- C5 counterexample: `exPsi` satisfies the first signature of `exOS` but
not the second, so `assign_overload` — which instantiates `connect` (and its
`std::function` construction) for every member, with no per-member
selection — is ill-formed: `overload_connect_ok` is false, a compile error
rather than "the unsatisfied member is left untouched".  The spec-modelled
selective `overload_bind_all_spec` (what the claim describes) would instead
bind member 0 and leave member 1 untouched. -/
theorem overload_selective_bind_counterexample :
    (exPsi 0).isSome = true ∧
    overload_connect_ok exOS exPsi = false ∧
    ((overload_bind_all_spec exOS none exPsi).members ⟨0, by decide⟩).func.isSome = true ∧
    (overload_bind_all_spec exOS none exPsi).members ⟨1, by decide⟩ =
      (defaultSlot : Slot Nat Nat) := by
  refine ⟨rfl, rfl, rfl, rfl⟩

/-- C5 amended: `connect` requires the callable to satisfy **every** member
signature (`overload_connect_ok`, the compile-time condition); under it,
every member is bound to the callable's shape for its own signature with the
given sentinel, each bind independent; `has_type` decides exactly signature
membership, and `get` (under its compile-time membership proof) returns the
member at the requested signature's position — never a runtime fallback. -/
theorem overload_connect_binds_all {σ α ρ : Type} [DecidableEq σ]
    (os : overload_set σ α ρ) (sn : Option sentinel_t)
    (ψ : σ → Option (α → CallResult ρ)) (h : overload_connect_ok os ψ = true) :
    (os.connect sn ψ h).sigs = os.sigs ∧
    (∀ i : Fin os.sigs.length, ∃ f, ψ (os.sigs.get i) = some f ∧
      ((os.connect sn ψ h).members i).func = some f ∧
      ((os.connect sn ψ h).members i).sentinel = sn) ∧
    (∀ T : σ, has_type T os.sigs = true ↔ T ∈ os.sigs) ∧
    (∀ T : σ, ∀ hT : has_type T os.sigs = true, ∃ i : Fin os.sigs.length,
      os.sigs.get i = T ∧ os.get T hT = os.members i) := by
  refine ⟨rfl, ?_, fun T => has_type_eq_mem T os.sigs, ?_⟩
  · intro i
    have hmem : os.sigs.get i ∈ os.sigs := os.sigs.get_mem i.1 i.2
    have hsome : (ψ (os.sigs.get i)).isSome = true := List.all_eq_true.mp h _ hmem
    obtain ⟨f, hf⟩ := Option.isSome_iff_exists.mp hsome
    refine ⟨f, hf, ?_, rfl⟩
    exact (Option.some_get hsome).trans hf
  · intro T hT
    refine ⟨⟨os.sigs.indexOf T,
      List.indexOf_lt_length.mpr ((has_type_eq_mem T os.sigs).mp hT)⟩,
      List.indexOf_get _, rfl⟩

/-- Witness for C5's amended theorem: the two-signature set and a callable
satisfying both signatures. -/
theorem overload_connect_binds_all_witness :
    (exOS.connect none exPsiAll rfl).sigs = exOS.sigs ∧
    (∀ i : Fin exOS.sigs.length, ∃ f, exPsiAll (exOS.sigs.get i) = some f ∧
      ((exOS.connect none exPsiAll rfl).members i).func = some f ∧
      ((exOS.connect none exPsiAll rfl).members i).sentinel = none) ∧
    (∀ T : Nat, has_type T exOS.sigs = true ↔ T ∈ exOS.sigs) ∧
    (∀ T : Nat, ∀ hT : has_type T exOS.sigs = true, ∃ i : Fin exOS.sigs.length,
      exOS.sigs.get i = T ∧ exOS.get T hT = exOS.members i) :=
  overload_connect_binds_all exOS none exPsiAll rfl

/-- C6: validity is exactly the conjunction "a callable is stored and the
slot is not expired"; `expired` is true iff a token is present and itself
expired; and with no token attached the slot is never expired. -/
theorem validity_conjunction {α ρ : Type} (w : World) (s : Slot α ρ) :
    s.valid w = (!s.empty && !s.expired w) ∧
    (s.expired w = true ↔ ∃ sn, s.sentinel = some sn ∧ sn.expired w = true) ∧
    Slot.expired w (⟨s.func, none⟩ : Slot α ρ) = false := by
  refine ⟨by simp [Slot.valid, Bool.and_comm], ?_, rfl⟩
  cases hsn : s.sentinel with
  | none => simp [Slot.expired, hsn]
  | some sn => simp [Slot.expired, hsn]

/-- When a valid slot is invoked, the stored callable is called. -/
theorem invoke_calls_of_valid {α ρ : Type} (w : World) (s : Slot α ρ)
    (f : α → CallResult ρ) (hf : s.func = some f) (hv : s.valid w = true)
    (a : α) : (Slot.invoke w s a).2 = true := by
  simp only [Slot.invoke, hv, if_true, hf]
  cases f a with
  | ok v => rfl
  | soft e => by_cases hp : e.is_passthrough <;> simp [hp]
  | err n => rfl

/-- When a valid void slot is invoked, the stored callable is called. -/
theorem invokeVoid_calls_of_valid {α : Type} (w : World) (s : Slot α Unit)
    (f : α → CallResult Unit) (hf : s.func = some f) (hv : s.valid w = true)
    (a : α) : (Slot.invokeVoid w s a).2 = true := by
  simp only [Slot.invokeVoid, hv, if_true, hf]
  cases f a with
  | ok v => rfl
  | soft e => by_cases hp : e.is_passthrough <;> simp [hp]
  | err n => rfl

/-- C7: after binding a callable with no token, the slot is valid in every
world and every invoke calls the callable, regardless of any external
object's lifetime or destruction. -/
theorem no_token_always_calls {α β ρ : Type} (w : World) (s : Slot α ρ)
    (f : α → CallResult ρ) (a : α) (t : Slot β Unit)
    (g : β → CallResult Unit) (b : β) :
    (s.connectNoSentinel f).valid w = true ∧
    (Slot.invoke w (s.connectNoSentinel f) a).2 = true ∧
    (t.connectNoSentinel g).valid w = true ∧
    (Slot.invokeVoid w (t.connectNoSentinel g) b).2 = true := by
  have hv : ∀ (γ δ : Type) (u : Slot γ δ) (k : γ → CallResult δ),
      (u.connectNoSentinel k).valid w = true := by
    intro γ δ u k
    simp [Slot.connectNoSentinel, Slot.connect, Slot.connect_impl, Slot.valid,
      Slot.expired, Slot.empty]
  refine ⟨hv _ _ s f, ?_, hv _ _ t g, ?_⟩
  · exact invoke_calls_of_valid w _ f rfl (hv _ _ s f) a
  · exact invokeVoid_calls_of_valid w _ g rfl (hv _ _ t g) b

/-- C8: `disconnect` clears both the callable and the token as a unit:
afterwards the slot is empty and invalid in every world, and invoke never
calls the previously bound callable. -/
theorem disconnect_clears_all {α ρ : Type} (s : Slot α ρ) (w : World) (a : α) :
    s.disconnect.func = none ∧ s.disconnect.sentinel = none ∧
    s.disconnect.empty = true ∧ s.disconnect.valid w = false ∧
    Slot.invoke w s.disconnect a = (InvokeOutcome.ret none, false) :=
  ⟨rfl, rfl, rfl, rfl, rfl⟩

/-- C9: an exception thrown by the stored callable that is not
`function_exception` propagates out of invoke unmodified (same exception,
nothing caught, no recovery), for both value and void signatures. -/
theorem other_exception_propagates {α β ρ : Type} (w : World)
    (s : Slot α ρ) (f : α → CallResult ρ) (hf : s.func = some f)
    (hv : s.valid w = true) (a : α) (n : Nat) (he : f a = CallResult.err n)
    (t : Slot β Unit) (g : β → CallResult Unit) (hg : t.func = some g)
    (hvt : t.valid w = true) (b : β) (m : Nat) (hge : g b = CallResult.err m) :
    Slot.invoke w s a = (InvokeOutcome.err_thrown n, true) ∧
    Slot.invokeVoid w t b = (VoidOutcome.err_thrown m, true) := by
  constructor
  · simp [Slot.invoke, hv, hf, he]
  · simp [Slot.invokeVoid, hvt, hg, hge]

/-- Witness for C9: callables throwing a non-`function_exception` error. -/
theorem other_exception_propagates_witness :
    Slot.invoke ⟨[], 0⟩
      (⟨some (fun _ => CallResult.err 42), none⟩ : Slot Nat Nat) 1 =
      (InvokeOutcome.err_thrown 42, true) ∧
    Slot.invokeVoid ⟨[], 0⟩
      (⟨some (fun _ => CallResult.err 9), none⟩ : Slot Nat Unit) 2 =
      (VoidOutcome.err_thrown 9, true) :=
  other_exception_propagates ⟨[], 0⟩
    (⟨some (fun _ => CallResult.err 42), none⟩ : Slot Nat Nat)
    (fun _ => CallResult.err 42) rfl rfl 1 42 rfl
    (⟨some (fun _ => CallResult.err 9), none⟩ : Slot Nat Unit)
    (fun _ => CallResult.err 9) rfl rfl 2 9 rfl

/-- C10: the sentinel handed out by `lifetime_sentinel` is not expired right
after construction and in any world where the guard marker is still alive;
it is expired once the owner is destroyed; and it never extends the owner's
lifetime: the destruction step is available in every world, unconditionally
on any outstanding sentinel copies. -/
theorem lifetime_sentinel_tracks_owner (w w' : World)
    (halive : (mk_lifetime_sentinel w).1.guard_id ∈ w'.alive) :
    ((mk_lifetime_sentinel w).1.get_sentinel).expired (mk_lifetime_sentinel w).2 = false ∧
    ((mk_lifetime_sentinel w).1.get_sentinel).expired w' = false ∧
    ((mk_lifetime_sentinel w).1.get_sentinel).expired
      (w'.destroyOwner (mk_lifetime_sentinel w).1.guard_id) = true ∧
    World.Step w' (w'.destroyOwner (mk_lifetime_sentinel w).1.guard_id) := by
  refine ⟨?_, ?_, ?_, World.Step.destroy w' _⟩
  · simp [mk_lifetime_sentinel, lifetime_sentinel.get_sentinel, sentinel_t.expired,
      World.allocMarker]
  · simp [lifetime_sentinel.get_sentinel, sentinel_t.expired, halive]
  · simp [lifetime_sentinel.get_sentinel, sentinel_t.expired, World.destroyOwner,
      List.mem_filter]

/-- Witness for C10: construct the guard in the empty world, then destroy
its owner. -/
theorem lifetime_sentinel_tracks_owner_witness :
    ((mk_lifetime_sentinel ⟨[], 0⟩).1.get_sentinel).expired
      (mk_lifetime_sentinel ⟨[], 0⟩).2 = false ∧
    ((mk_lifetime_sentinel ⟨[], 0⟩).1.get_sentinel).expired ⟨[0], 1⟩ = false ∧
    ((mk_lifetime_sentinel ⟨[], 0⟩).1.get_sentinel).expired
      (World.destroyOwner ⟨[0], 1⟩ (mk_lifetime_sentinel ⟨[], 0⟩).1.guard_id) = true ∧
    World.Step ⟨[0], 1⟩
      (World.destroyOwner ⟨[0], 1⟩ (mk_lifetime_sentinel ⟨[], 0⟩).1.guard_id) :=
  lifetime_sentinel_tracks_owner ⟨[], 0⟩ ⟨[0], 1⟩ (by decide)

end Hpp
